import Mathlib

/-!
Shallow embedding of `src/watchdog/proxy.py` (the vLLM smart proxy).

The proxy is a FastAPI app with one shared `ServerManager`:
  - `check_health` probes `VLLM_URL/health` with a 5 s timeout and maps the
    outcome to a `Bool` (any exception, including a timeout, yields `false`);
  - `ensure_server_ready` runs entirely under `self._lock` (an `asyncio.Lock`),
    so concurrent callers are serialized; the body is a fast path
    (`_healthy and check_health`) plus a slow path that optionally issues
    `docker start` and then polls `check_health` until `STARTUP_TIMEOUT`;
  - `idle_monitor` is a background loop that stops the container after
    `IDLE_TIMEOUT` seconds of inactivity;
  - the catch-all `proxy` route records activity, runs `ensure_server_ready`,
    forwards the request with hop-by-hop headers stripped, and converts
    network failures into synthetic 502/504 responses.

External effects (HTTP probes, `docker start`/`docker stop`, the wall clock)
are modelled as oracle inputs (`NetOutcome`, `CallEnv`, explicit `Int` clock
values); since the whole body of `ensure_server_ready` holds the lock, a set
of concurrent calls is modelled as a sequence of calls in scheduler order.
Every return path of a Python function is a branch of the corresponding Lean
definition, and each definition carries a trace of the externally visible
commands (health probes, start commands, sleeps) so that counting properties
can be stated.
-/

/-- Configuration default: `VLLM_URL = os.environ.get("VLLM_URL", "http://hunyuan-ocr:8000")`. -/
def VLLM_URL : String := "http://hunyuan-ocr:8000"

/-- Configuration default: `IDLE_TIMEOUT = get_env_int("IDLE_TIMEOUT", 300)`. -/
def IDLE_TIMEOUT : Int := 300

/-- Configuration default: `CHECK_INTERVAL = get_env_int("CHECK_INTERVAL", 30)`. -/
def CHECK_INTERVAL : Nat := 30

/-- Configuration default: `STARTUP_TIMEOUT = get_env_int("STARTUP_TIMEOUT", 600)`. -/
def STARTUP_TIMEOUT : Nat := 600

/-- The probe timeout passed in `client.get(f"{VLLM_URL}/health", timeout=5)`. -/
def CHECK_HEALTH_TIMEOUT : Nat := 5

/-- Outcome of one HTTP GET against the backend health endpoint, as seen by
`httpx`: either a reply with a status code after `latency` seconds (a latency
above the configured timeout surfaces as a `TimeoutException`), or any other
exception (connection refused, DNS failure, ...). -/
inductive NetOutcome where
  | reply (status : Nat) (latency : Nat)
  | netError
deriving DecidableEq, Repr

/-- `ServerManager.check_health`: returns `response.status_code == 200`, and
`false` on any exception (`except Exception: return False`); a latency above
`CHECK_HEALTH_TIMEOUT` raises a timeout exception inside the `try`, hence
also returns `false`. -/
def check_health (o : NetOutcome) : Bool :=
  match o with
  | .reply status latency =>
      if latency ≤ CHECK_HEALTH_TIMEOUT then status == 200 else false
  | .netError => false

/-- The mutable fields of `ServerManager` relevant to the claims:
`_healthy`, `_starting`, and `last_activity_time` (a monotonic-clock reading,
modelled as `Int`).  `_lock` needs no field: calls that acquire it are
serialized by construction of the model. -/
structure MState where
  healthy : Bool
  starting : Bool
  lastActivity : Int
deriving DecidableEq, Repr

/-- `ServerManager.record_activity`: `self.last_activity_time = time.monotonic()`.
The current monotonic reading is the explicit argument `now`. -/
def record_activity (now : Int) (st : MState) : MState :=
  { st with lastActivity := now }

/-- `ServerManager.get_idle_seconds`: `time.monotonic() - self.last_activity_time`. -/
def get_idle_seconds (now : Int) (st : MState) : Int :=
  now - st.lastActivity

/-- Externally visible commands issued by `ensure_server_ready`, recorded as a
trace: the fast-path health probe (issued only when `_healthy` is true), the
`is_container_running` query, the `docker start` command, the polling-loop
health probes (with probe index and elapsed seconds at the loop test), and
the `asyncio.sleep` calls (with the wait chosen and the elapsed seconds at
the moment `wait_time` is computed). -/
inductive Ev where
  | fastCheck (ok : Bool)
  | runningCheck (r : Bool)
  | startCmd (ok : Bool)
  | probe (k e : Nat) (ok : Bool)
  | sleep (w e : Nat)
deriving DecidableEq, Repr

/-- Oracle inputs consumed by one call to `ensure_server_ready`: the outcome
of the fast-path health probe, of `is_container_running`, of `docker start`,
the outcome and duration of each polling probe (indexed by `check_count`),
and the monotonic reading `start_time` taken when the wait loop begins. -/
structure CallEnv where
  fastProbe : NetOutcome
  running : Bool
  startOk : Bool
  probes : Nat → NetOutcome
  durs : Nat → Nat
  startTime : Int

/-- Result of the polling loop: whether a probe succeeded, the elapsed
seconds at the return point, and the trace of probes and sleeps. -/
structure PollResult where
  ok : Bool
  elapsed : Nat
  trace : List Ev
deriving Repr

/-- The `while time.monotonic() - start_time < STARTUP_TIMEOUT` loop of
`ensure_server_ready`.  `elapsed` is the monotonic reading minus
`start_time` at the loop test; the probe for index `k` takes `durs k`
seconds, so the wait decision `wait_time = 2 if (elapsed) < 30 else 5` and
the success return both see `elapsed + durs k`. -/
def pollLoop (probes : Nat → NetOutcome) (durs : Nat → Nat) (timeout : Nat)
    (elapsed k : Nat) : PollResult :=
  if h : elapsed < timeout then
    let e2 := elapsed + durs k
    if check_health (probes k) then
      { ok := true, elapsed := e2, trace := [Ev.probe k elapsed true] }
    else
      let w := if e2 < 30 then 2 else 5
      let rest := pollLoop probes durs timeout (e2 + w) (k + 1)
      { ok := rest.ok, elapsed := rest.elapsed,
        trace := Ev.probe k elapsed false :: Ev.sleep w e2 :: rest.trace }
  else
    { ok := false, elapsed := elapsed, trace := [] }
termination_by timeout - elapsed
decreasing_by
  simp_wf
  split <;> omega

/-- Result of one `ensure_server_ready` call: the returned `Bool`, the
manager state after the call, whether the fast path returned, and the trace
of issued commands. -/
structure EnsureResult where
  ok : Bool
  st : MState
  fastPath : Bool
  trace : List Ev

/-- The slow-path tail of `ensure_server_ready` after the optional
`start_container`: run the wait loop; on success set `_healthy = True`,
`record_activity()` and return `True`; on timeout return `False`.  The
`finally: self._starting = False` clears the flag on both exits. -/
def pollPhase (st : MState) (env : CallEnv) (timeout : Nat) (pre : List Ev) :
    EnsureResult :=
  let p := pollLoop env.probes env.durs timeout 0 0
  if p.ok then
    { ok := true,
      st := record_activity (env.startTime + p.elapsed)
              { st with healthy := true, starting := false },
      fastPath := false, trace := pre ++ p.trace }
  else
    { ok := false, st := { st with starting := false },
      fastPath := false, trace := pre ++ p.trace }

/-- `ServerManager.ensure_server_ready`.  The whole body runs under
`async with self._lock`.  Fast path: `if self._healthy and await
self.check_health(client): return True` (the probe is only issued when
`_healthy` is true, by short-circuiting).  Slow path: set `_healthy = False`
and `_starting = True`; if the container is not running, issue
`start_container` and return `False` on failure (the `finally` resets
`_starting`); otherwise poll. -/
def ensure_server_ready (st : MState) (env : CallEnv) (timeout : Nat) :
    EnsureResult :=
  if st.healthy && check_health env.fastProbe then
    { ok := true, st := st, fastPath := true, trace := [Ev.fastCheck true] }
  else
    let fastTrace : List Ev :=
      if st.healthy then [Ev.fastCheck (check_health env.fastProbe)] else []
    let st1 : MState := { st with healthy := false, starting := true }
    if env.running then
      pollPhase st1 env timeout (fastTrace ++ [Ev.runningCheck true])
    else if env.startOk then
      pollPhase st1 env timeout
        (fastTrace ++ [Ev.runningCheck false, Ev.startCmd true])
    else
      { ok := false, st := { st1 with starting := false }, fastPath := false,
        trace := fastTrace ++ [Ev.runningCheck false, Ev.startCmd false] }

/-- Trace predicate: is this event a `docker start` command? -/
def isStartEv : Ev → Bool
  | .startCmd _ => true
  | _ => false

/-- Trace predicate: is this event a polling-loop health probe? -/
def isProbeEv : Ev → Bool
  | .probe _ _ _ => true
  | _ => false

/-- Number of `docker start` commands recorded in a trace. -/
def startCount (tr : List Ev) : Nat := tr.countP isStartEv

/-- Number of polling-loop health probes recorded in a trace. -/
def probeCount (tr : List Ev) : Nat := tr.countP isProbeEv

/-- A set of concurrent `ensure_server_ready` calls: since every call holds
`self._lock` for its whole body, the calls execute one after the other in
scheduler order, each seeing the manager state the previous call left. -/
def runCalls (st : MState) (envs : List CallEnv) (timeout : Nat) :
    List EnsureResult :=
  match envs with
  | [] => []
  | e :: rest =>
      let r := ensure_server_ready st e timeout
      r :: runCalls r.st rest timeout

/-- Total number of `docker start` commands issued across a set of calls. -/
def totalStarts (rs : List EnsureResult) : Nat :=
  (rs.map fun r => startCount r.trace).sum

/-- `ServerManager.stop_container`: runs `docker stop`; on exit code 0 sets
`self._healthy = False` and returns `True`; on failure (or exception) the
state is unchanged and it returns `False`.  The command outcome is the
oracle argument `ok`. -/
def stop_container (st : MState) (ok : Bool) : Bool × MState :=
  if ok then (true, { st with healthy := false }) else (false, st)

/-- Oracle inputs for one iteration of the idle-monitor loop: the idle
seconds `get_idle_seconds` computes at that iteration, and the outcome of
`docker stop` if it is invoked. -/
structure MonIn where
  idle : Int
  stopOk : Bool
deriving DecidableEq, Repr

/-- One iteration of the `idle_monitor` loop body (after the
`asyncio.sleep(CHECK_INTERVAL)`): skip if `server_manager.is_starting`; skip
if not `server_manager._healthy`; compute `remaining = IDLE_TIMEOUT -
idle_seconds`; if `remaining <= 0`, call `stop_container` (the other
branches only log).  Returns whether `stop_container` was called, and the
resulting manager state. -/
def monitorStep (st : MState) (inp : MonIn) (idleTimeout : Int) :
    Bool × MState :=
  if st.starting then (false, st)
  else if !st.healthy then (false, st)
  else if idleTimeout - inp.idle ≤ 0 then
    (true, (stop_container st inp.stopOk).2)
  else (false, st)

/-- A run of consecutive idle-monitor iterations (no interleaved
`ensure_server_ready` call): returns the number of iterations that called
`stop_container` and the final manager state. -/
def monitorRun (st : MState) (inps : List MonIn) (idleTimeout : Int) :
    Nat × MState :=
  match inps with
  | [] => (0, st)
  | i :: rest =>
      let s := monitorStep st i idleTimeout
      let r := monitorRun s.2 rest idleTimeout
      ((if s.1 then 1 else 0) + r.1, r.2)

/-- The headers dropped from the inbound request before forwarding:
`for h in ["host", "connection", "keep-alive", "transfer-encoding",
"upgrade"]: headers.pop(h, None)`. -/
def REQUEST_STRIP : List String :=
  ["host", "connection", "keep-alive", "transfer-encoding", "upgrade"]

/-- The headers dropped from the backend response before replying:
`for h in ["connection", "keep-alive", "transfer-encoding"]:
response_headers.pop(h, None)`. -/
def RESPONSE_STRIP : List String :=
  ["connection", "keep-alive", "transfer-encoding"]

/-- Header maps are association lists with the lower-case keys Starlette's
`dict(request.headers)` / httpx's `dict(response.headers)` produce; popping
a key is removing every pair bearing it. -/
def stripHeaders (drop : List String) (hs : List (String × String)) :
    List (String × String) :=
  hs.filter fun p => !(drop.contains p.1)

/-- An inbound request as the handler sees it: method, path (the `{path}`
catch-all), query string, headers, raw body bytes. -/
structure Req where
  method : String
  path : String
  query : String
  headers : List (String × String)
  body : List Nat
deriving DecidableEq, Repr

/-- The outbound request handed to `http_client.build_request`. -/
structure BackendReq where
  method : String
  url : String
  headers : List (String × String)
  body : List Nat
deriving DecidableEq, Repr

/-- `url = f"{VLLM_URL}/{path}"`, plus `?{query}` when the query string is
nonempty. -/
def buildUrl (base path query : String) : String :=
  let u := base ++ "/" ++ path
  if query ≠ "" then u ++ "?" ++ query else u

/-- The outbound request built by the `proxy` handler: backend base URL plus
original path and query, the original method and body unchanged, and the
request headers with the hop-by-hop set removed. -/
def buildBackendRequest (base : String) (r : Req) : BackendReq :=
  { method := r.method,
    url := buildUrl base r.path r.query,
    headers := stripHeaders REQUEST_STRIP r.headers,
    body := r.body }

/-- Outcome of `http_client.send` on the forwarded request: a backend
response (status, headers, body bytes — delivered identically by the
streaming and the buffered branch), an `httpx.TimeoutException`, or any
other exception. -/
inductive SendOutcome where
  | success (status : Nat) (headers : List (String × String)) (body : List Nat)
  | timeout
  | netError
deriving Repr

/-- The response the `proxy` handler produces, together with the outbound
request it sent (`none` when no forwarding was attempted) and the manager
state after the handler returns.  The bodies of the synthetic 503/504/502
responses are fixed JSON literals, irrelevant to the claims, modelled as
`[]`. -/
structure ProxyOutcome where
  status : Nat
  headers : List (String × String)
  body : List Nat
  sent : Option BackendReq
  st : MState

/-- The catch-all `proxy` route handler: record activity, run
`ensure_server_ready` (503 without forwarding if it fails), otherwise build
the outbound request and send it; `httpx.TimeoutException` yields a 504 and
leaves the manager state as the readiness check left it, any other
exception yields a 502 and sets `server_manager._healthy = False`. -/
def proxy (st : MState) (now : Int) (req : Req) (env : CallEnv)
    (send : SendOutcome) (timeout : Nat) : ProxyOutcome :=
  let st0 := record_activity now st
  let r := ensure_server_ready st0 env timeout
  if r.ok then
    let breq := buildBackendRequest VLLM_URL req
    match send with
    | .success s hs b =>
        { status := s, headers := stripHeaders RESPONSE_STRIP hs, body := b,
          sent := some breq, st := r.st }
    | .timeout =>
        { status := 504, headers := [], body := [], sent := some breq,
          st := r.st }
    | .netError =>
        { status := 502, headers := [], body := [], sent := some breq,
          st := { r.st with healthy := false } }
  else
    { status := 503, headers := [], body := [], sent := none, st := r.st }

/-- Boolean check over a polling-loop trace, for the backoff policy: every
`sleep` waits 2 seconds when the elapsed wait at the decision point is
under 30 seconds and 5 seconds otherwise, and every probe is issued while
the elapsed wait is below the startup timeout. -/
def backoffOk (timeout : Nat) (tr : List Ev) : Bool :=
  tr.all fun ev =>
    match ev with
    | .sleep w e => w == (if e < 30 then 2 else 5)
    | .probe _ e _ => decide (e < timeout)
    | _ => true

/-! ### Helper lemmas about the polling loop -/

/-- If every polling probe reports unhealthy, the wait loop exits by timeout
and reports failure. -/
theorem pollLoop_ok_false (probes : Nat → NetOutcome) (durs : Nat → Nat)
    (t : Nat) (h : ∀ j, check_health (probes j) = false) (e k : Nat) :
    (pollLoop probes durs t e k).ok = false := by
  induction e, k using pollLoop.induct probes durs t with
  | case1 e k hlt hc => rw [h k] at hc; exact absurd hc (by simp)
  | case2 e k hlt e2 hc w ih =>
      rw [pollLoop]
      simp only [hlt, dif_pos, h k, if_neg, Bool.false_eq_true,
        not_false_eq_true, if_false]
      exact ih
  | case3 e k hlt => rw [pollLoop]; simp [hlt]

/-- The wait loop never issues a `docker start` command. -/
theorem pollLoop_no_start (probes : Nat → NetOutcome) (durs : Nat → Nat)
    (t e k : Nat) :
    startCount (pollLoop probes durs t e k).trace = 0 := by
  induction e, k using pollLoop.induct probes durs t with
  | case1 e k hlt hc =>
      rw [pollLoop]
      simp [hlt, hc, startCount, isStartEv]
  | case2 e k hlt e2 hc w ih =>
      rw [pollLoop]
      simp only [Bool.not_eq_true] at hc
      simp [hlt, hc, startCount, isStartEv, List.countP_cons] at ih ⊢
      exact ih
  | case3 e k hlt => rw [pollLoop]; simp [hlt, startCount]

/-- The wait loop's trace obeys the backoff policy and the timeout bound. -/
theorem pollLoop_backoff (probes : Nat → NetOutcome) (durs : Nat → Nat)
    (t e k : Nat) :
    backoffOk t (pollLoop probes durs t e k).trace = true := by
  induction e, k using pollLoop.induct probes durs t with
  | case1 e k hlt hc =>
      rw [pollLoop]
      simp [hlt, hc, backoffOk]
  | case2 e k hlt e2 hc w ih =>
      rw [pollLoop]
      simp only [Bool.not_eq_true] at hc
      simp [hlt, hc, backoffOk] at ih ⊢
      exact ih
  | case3 e k hlt => rw [pollLoop]; simp [hlt, backoffOk]

/-- If the very first polling probe reports healthy and the timeout window
is open, the wait loop succeeds at once (used to build concrete witnesses). -/
theorem pollLoop_ok_first (probes : Nat → NetOutcome) (durs : Nat → Nat)
    (t : Nat) (h0 : 0 < t) (hp : check_health (probes 0) = true) :
    (pollLoop probes durs t 0 0).ok = true := by
  rw [pollLoop]
  simp [h0, hp]

/-! ### Helper lemmas about `ensure_server_ready` and its callers -/

/-- Fast path: a cached-healthy state plus a passing probe returns at once,
leaving the manager state untouched and issuing no command but the probe. -/
theorem ensure_fast (st : MState) (env : CallEnv) (t : Nat)
    (hh : st.healthy = true) (hf : check_health env.fastProbe = true) :
    ensure_server_ready st env t =
      { ok := true, st := st, fastPath := true,
        trace := [Ev.fastCheck true] } := by
  unfold ensure_server_ready
  simp [hh, hf]

/-- Cold start: from a state not cached healthy, with the container stopped,
a successful start command and a wait loop that reaches health, the call
succeeds, caches health, and issues exactly one start command. -/
theorem ensure_cold_start (st : MState) (env : CallEnv) (t : Nat)
    (hh : st.healthy = false) (hr : env.running = false)
    (hs : env.startOk = true)
    (hp : (pollLoop env.probes env.durs t 0 0).ok = true) :
    (ensure_server_ready st env t).ok = true ∧
    (ensure_server_ready st env t).st.healthy = true ∧
    startCount (ensure_server_ready st env t).trace = 1 := by
  unfold ensure_server_ready pollPhase
  simp [hh, hr, hs, hp, startCount, isStartEv, List.countP_append,
    record_activity]
  have := pollLoop_no_start env.probes env.durs t 0 0
  simp [startCount] at this
  exact this

/-- Unfolding equation for a nonempty sequence of serialized calls. -/
theorem runCalls_cons (st : MState) (e : CallEnv) (rest : List CallEnv)
    (t : Nat) :
    runCalls st (e :: rest) t =
      ensure_server_ready st e t ::
        runCalls (ensure_server_ready st e t).st rest t := rfl

/-- A set of calls none of which issues a start command issues none. -/
theorem totalStarts_eq_zero (rs : List EnsureResult)
    (h : ∀ r ∈ rs, startCount r.trace = 0) : totalStarts rs = 0 := by
  induction rs with
  | nil => simp [totalStarts]
  | cons r rest ih =>
      simp [totalStarts] at ih ⊢
      exact ⟨h r (by simp), ih fun x hx => h x (by simp [hx])⟩

/-- From a cached-healthy state, serialized callers whose fast probes pass
all return through the fast path and never issue a start command. -/
theorem runCalls_fast (t : Nat) (envs : List CallEnv) :
    ∀ st : MState, st.healthy = true →
      (∀ e ∈ envs, check_health e.fastProbe = true) →
      ∀ r ∈ runCalls st envs t,
        r.ok = true ∧ r.fastPath = true ∧ startCount r.trace = 0 := by
  induction envs with
  | nil => intro st _ _ r hr; simp [runCalls] at hr
  | cons e rest ih =>
      intro st hh hf r hr
      rw [runCalls_cons] at hr
      have hfe : check_health e.fastProbe = true := hf e (by simp)
      rw [ensure_fast st e t hh hfe] at hr
      rcases List.mem_cons.mp hr with h1 | h2
      · subst h1; refine ⟨rfl, rfl, ?_⟩; simp [startCount, isStartEv]
      · exact ih st hh (fun x hx => hf x (by simp [hx])) r h2

/-- When the fast probe and every polling probe report unhealthy, the call
fails whatever the container and start-command oracles say. -/
theorem ensure_fails_when_unhealthy (st : MState) (env : CallEnv) (t : Nat)
    (hf : check_health env.fastProbe = false)
    (hp : ∀ j, check_health (env.probes j) = false) :
    (ensure_server_ready st env t).ok = false := by
  unfold ensure_server_ready pollPhase
  have hpl := pollLoop_ok_false env.probes env.durs t hp 0 0
  simp only [hf, Bool.and_false, Bool.false_eq_true, if_false]
  split
  · simp [hpl]
  · split
    · simp [hpl]
    · rfl

/-- Unfolding equation for a nonempty run of monitor iterations. -/
theorem monitorRun_cons (st : MState) (i : MonIn) (rest : List MonIn)
    (T : Int) :
    monitorRun st (i :: rest) T =
      ((if (monitorStep st i T).1 then 1 else 0) +
         (monitorRun (monitorStep st i T).2 rest T).1,
       (monitorRun (monitorStep st i T).2 rest T).2) := rfl

/-- While the backend is not cached healthy, the monitor loop never calls
`stop_container` and never changes the manager state. -/
theorem monitorRun_not_healthy (inps : List MonIn) (T : Int) :
    ∀ st : MState, st.healthy = false → monitorRun st inps T = (0, st) := by
  induction inps with
  | nil => intro st _; rfl
  | cons i rest ih =>
      intro st hh
      have hstep : monitorStep st i T = (false, st) := by
        unfold monitorStep
        cases hst : st.starting <;> simp [hst, hh]
      rw [monitorRun_cons, hstep]
      simp [ih st hh]

/-! ### Concrete fixtures for witnesses and counterexamples -/

/-- A manager state with nothing cached (the backend is stopped). -/
def stStoppedW : MState :=
  { healthy := false, starting := false, lastActivity := 0 }

/-- A manager state cached healthy (the backend is up). -/
def stHealthyW : MState :=
  { healthy := true, starting := false, lastActivity := 0 }

/-- Oracles for a cold start that succeeds: container stopped, `docker
start` exits 0, the first polling probe already reports healthy. -/
def envColdW : CallEnv :=
  { fastProbe := .netError, running := false, startOk := true,
    probes := fun _ => .reply 200 0, durs := fun _ => 0, startTime := 0 }

/-- Oracles for a steady-state caller: the fast probe passes. -/
def envFastW : CallEnv :=
  { fastProbe := .reply 200 0, running := true, startOk := true,
    probes := fun _ => .netError, durs := fun _ => 0, startTime := 0 }

/-- Oracles for a backend that stays dead: every probe errors out and the
start command fails. -/
def envDeadW : CallEnv :=
  { fastProbe := .netError, running := false, startOk := false,
    probes := fun _ => .netError, durs := fun _ => 0, startTime := 0 }

/-- Oracles for a start that succeeds but a backend that never gets
healthy. -/
def envNeverHealthyW : CallEnv :=
  { fastProbe := .netError, running := false, startOk := true,
    probes := fun _ => .netError, durs := fun _ => 0, startTime := 0 }

/-- A concrete inbound request. -/
def reqW : Req :=
  { method := "POST", path := "v1/chat/completions", query := "",
    headers := [("content-type", "application/json"), ("host", "proxy:8000")],
    body := [123, 125] }

/-! ### The claims -/

/-- C1: for every set of concurrent requests arriving while the backend is
stopped (no cached health), serialized behind the readiness lock — the first
caller in lock order finding the container stopped, with a start command
that succeeds and a wait loop that reaches health, and every later caller's
fast probe passing — exactly one `docker start` command is issued in total,
every caller's `ensure_server_ready` returns true, and every caller after
the first returns through the cached-healthy fast path. -/
theorem readiness_single_flight (st : MState) (env1 : CallEnv)
    (rest : List CallEnv) (t : Nat)
    (hh : st.healthy = false) (hr : env1.running = false)
    (hs : env1.startOk = true)
    (hp : (pollLoop env1.probes env1.durs t 0 0).ok = true)
    (hrest : ∀ e ∈ rest, check_health e.fastProbe = true) :
    totalStarts (runCalls st (env1 :: rest) t) = 1 ∧
    (∀ r ∈ runCalls st (env1 :: rest) t, r.ok = true) ∧
    (∀ r ∈ (runCalls st (env1 :: rest) t).tail, r.fastPath = true) := by
  have hc := ensure_cold_start st env1 t hh hr hs hp
  have hfastAll :=
    runCalls_fast t rest (ensure_server_ready st env1 t).st hc.2.1 hrest
  rw [runCalls_cons]
  refine ⟨?_, ?_, ?_⟩
  · have hzero :
        totalStarts (runCalls (ensure_server_ready st env1 t).st rest t) = 0 :=
      totalStarts_eq_zero _ fun r hr2 => (hfastAll r hr2).2.2
    simp [totalStarts] at hzero ⊢
    simp [hc.2.2, hzero]
  · intro r hr2
    rcases List.mem_cons.mp hr2 with h1 | h2
    · subst h1; exact hc.1
    · exact (hfastAll r h2).1
  · intro r hr2
    simp only [List.tail_cons] at hr2
    exact (hfastAll r hr2).2.1

/-- Witness for C1: three concurrent callers against a stopped backend. -/
theorem readiness_single_flight_witness :
    totalStarts (runCalls stStoppedW (envColdW :: [envFastW, envFastW]) 600) = 1 ∧
    (∀ r ∈ runCalls stStoppedW (envColdW :: [envFastW, envFastW]) 600,
      r.ok = true) ∧
    (∀ r ∈ (runCalls stStoppedW (envColdW :: [envFastW, envFastW]) 600).tail,
      r.fastPath = true) :=
  readiness_single_flight stStoppedW envColdW [envFastW, envFastW] 600 rfl rfl
    rfl (pollLoop_ok_first envColdW.probes envColdW.durs 600 (by decide) rfl)
    (by
      intro e he
      rcases List.mem_cons.mp he with h | h
      · subst h; rfl
      · rw [List.mem_singleton] at h; subst h; rfl)

/-- C2: if the fast probe and every polling probe report unhealthy for the
whole startup window, `ensure_server_ready` returns false, the handler
forwards nothing to the backend, and the caller receives a 503 response. -/
theorem readiness_timeout_503 (st : MState) (now : Int) (req : Req)
    (env : CallEnv) (send : SendOutcome) (t : Nat)
    (hf : check_health env.fastProbe = false)
    (hp : ∀ j, check_health (env.probes j) = false) :
    (ensure_server_ready (record_activity now st) env t).ok = false ∧
    (proxy st now req env send t).status = 503 ∧
    (proxy st now req env send t).sent = none := by
  have he := ensure_fails_when_unhealthy (record_activity now st) env t hf hp
  refine ⟨he, ?_, ?_⟩ <;> (unfold proxy; simp [he])

/-- Witness for C2: a backend that never answers its health endpoint. -/
theorem readiness_timeout_503_witness :
    (ensure_server_ready (record_activity 0 stStoppedW) envNeverHealthyW
        600).ok = false ∧
    (proxy stStoppedW 0 reqW envNeverHealthyW .netError 600).status = 503 ∧
    (proxy stStoppedW 0 reqW envNeverHealthyW .netError 600).sent = none :=
  readiness_timeout_503 stStoppedW 0 reqW envNeverHealthyW .netError 600 rfl
    fun _ => rfl

/-- C3 counterexample: a forwarding attempt that dies with
`httpx.TimeoutException` yields the synthetic 504, but the handler's
timeout branch does not touch `server_manager._healthy`: the cached state
stays Healthy, refuting "in both cases demotes the cached backend state to
Unhealthy". -/
theorem relay_timeout_no_demote_cex :
    (proxy stHealthyW 0 reqW envFastW .timeout 600).status = 504 ∧
    (proxy stHealthyW 0 reqW envFastW .timeout 600).st.healthy = true := by
  constructor <;> rfl

/-- C3 amended: a mid-relay timeout yields a synthetic 504 and leaves the
manager state exactly as the readiness check left it (no demotion); every
other mid-relay failure yields a synthetic 502 and demotes the cached state
to unhealthy. -/
theorem relay_failure_responses (st : MState) (now : Int) (req : Req)
    (env : CallEnv) (t : Nat)
    (h : (ensure_server_ready (record_activity now st) env t).ok = true) :
    (proxy st now req env .timeout t).status = 504 ∧
    (proxy st now req env .timeout t).st =
      (ensure_server_ready (record_activity now st) env t).st ∧
    (proxy st now req env .netError t).status = 502 ∧
    (proxy st now req env .netError t).st.healthy = false := by
  unfold proxy
  simp [h]

/-- Witness for C3's amended claim: a healthy backend that then fails
mid-relay. -/
theorem relay_failure_responses_witness :
    (proxy stHealthyW 0 reqW envFastW .timeout 600).status = 504 ∧
    (proxy stHealthyW 0 reqW envFastW .timeout 600).st =
      (ensure_server_ready (record_activity 0 stHealthyW) envFastW 600).st ∧
    (proxy stHealthyW 0 reqW envFastW .netError 600).status = 502 ∧
    (proxy stHealthyW 0 reqW envFastW .netError 600).st.healthy = false :=
  relay_failure_responses stHealthyW 0 reqW envFastW 600 rfl

/-- C4: on the slow path (the fast-path conjunction fails), when the
container is not running and the start command fails, `ensure_server_ready`
returns false at once and the wait loop issues no health probe. -/
theorem start_failure_fail_fast (st : MState) (env : CallEnv) (t : Nat)
    (hfp : (st.healthy && check_health env.fastProbe) = false)
    (hr : env.running = false) (hs : env.startOk = false) :
    (ensure_server_ready st env t).ok = false ∧
    probeCount (ensure_server_ready st env t).trace = 0 := by
  unfold ensure_server_ready
  simp only [hfp, Bool.false_eq_true, if_false, hr, hs]
  cases hhealthy : st.healthy <;>
    simp [probeCount, isProbeEv, List.countP_append, List.countP_cons]

/-- Witness for C4: a stopped container whose start command fails. -/
theorem start_failure_fail_fast_witness :
    (ensure_server_ready stStoppedW envDeadW 600).ok = false ∧
    probeCount (ensure_server_ready stStoppedW envDeadW 600).trace = 0 :=
  start_failure_fail_fast stStoppedW envDeadW 600 rfl rfl rfl

/-- C5: when an idle-monitor iteration sees the backend cached healthy, no
startup in progress, and the idle seconds at least the idle timeout, it
calls `stop_container`; with the stop succeeding, the whole run of monitor
iterations calls stop exactly once — the cached healthy state is cleared
and no later iteration (absent an intervening start/health cycle) calls
stop again — and the final cached state is unhealthy. -/
theorem idle_monitor_stops_once (st : MState) (inp : MonIn)
    (rest : List MonIn) (T : Int)
    (h1 : st.starting = false) (h2 : st.healthy = true)
    (h3 : T ≤ inp.idle) (h4 : inp.stopOk = true) :
    (monitorStep st inp T).1 = true ∧
    (monitorRun st (inp :: rest) T).1 = 1 ∧
    (monitorRun st (inp :: rest) T).2.healthy = false := by
  have hstep : monitorStep st inp T = (true, { st with healthy := false }) := by
    unfold monitorStep stop_container
    simp [h1, h2, h4, sub_nonpos.mpr h3]
  have hrest := monitorRun_not_healthy rest T { st with healthy := false } rfl
  rw [monitorRun_cons, hstep]
  simp [hstep, hrest]

/-- Witness for C5: a healthy backend idle beyond the timeout, followed by
two further monitor iterations. -/
theorem idle_monitor_stops_once_witness :
    IDLE_TIMEOUT ≤ (1000:Int) ∧
    (monitorStep stHealthyW { idle := 1000, stopOk := true } IDLE_TIMEOUT).1 =
      true ∧
    (monitorRun stHealthyW
        ({ idle := 1000, stopOk := true } ::
          [{ idle := 2000, stopOk := true }, { idle := 3000, stopOk := true }])
        IDLE_TIMEOUT).1 = 1 ∧
    (monitorRun stHealthyW
        ({ idle := 1000, stopOk := true } ::
          [{ idle := 2000, stopOk := true }, { idle := 3000, stopOk := true }])
        IDLE_TIMEOUT).2.healthy = false :=
  ⟨by decide,
    idle_monitor_stops_once stHealthyW { idle := 1000, stopOk := true }
      [{ idle := 2000, stopOk := true }, { idle := 3000, stopOk := true }]
      IDLE_TIMEOUT rfl rfl (by decide) rfl⟩

/-- C6: the wait loop of `ensure_server_ready` sleeps exactly 2 seconds
between probes while the elapsed wait at the decision point is under 30
seconds and exactly 5 seconds thereafter, issues probes only while the
elapsed wait is below the startup timeout, and that timeout defaults to
600 seconds. -/
theorem poll_backoff_policy (probes : Nat → NetOutcome) (durs : Nat → Nat)
    (t e k : Nat) :
    backoffOk t (pollLoop probes durs t e k).trace = true ∧
    STARTUP_TIMEOUT = 600 :=
  ⟨pollLoop_backoff probes durs t e k, rfl⟩

/-- C8: `check_health` is a total function of the probe outcome — it never
raises — and it returns true exactly when the health endpoint replies with
status 200 within the 5-second probe timeout; a network error, a non-200
status, or a latency above the timeout all yield false. -/
theorem check_health_spec (o : NetOutcome) :
    check_health o = true ↔
      ∃ lat, o = NetOutcome.reply 200 lat ∧ lat ≤ CHECK_HEALTH_TIMEOUT := by
  cases o with
  | reply s lat =>
      simp only [check_health, NetOutcome.reply.injEq]
      by_cases hle : lat ≤ CHECK_HEALTH_TIMEOUT
      · simp [hle]
        exact ⟨fun h => ⟨lat, ⟨h, rfl⟩, hle⟩, fun ⟨l, ⟨h1, _⟩, _⟩ => h1⟩
      · simp [hle]
        omega
  | netError =>
      simp [check_health]

/-- C9: reading the idle tracker immediately after recording activity (same
monotonic reading) yields zero; in general `get_idle_seconds` returns the
current monotonic reading minus the timestamp the latest `record_activity`
stored. -/
theorem idle_tracker_reset (st : MState) (now now2 : Int) :
    get_idle_seconds now (record_activity now st) = 0 ∧
    get_idle_seconds now2 (record_activity now st) = now2 - now := by
  simp [get_idle_seconds, record_activity]

/-- C10: after any `ensure_server_ready` call returns, the `_starting` flag
is false unless the call returned through the fast path (which never
touches the flag and leaves the state unchanged): the fast path is taken
exactly when the cached-healthy bit and the fast probe both pass, and on
the slow path every exit — start failure, wait-loop success, or timeout —
leaves `_starting = false` (the `finally` block). -/
theorem starting_flag_reset (st : MState) (env : CallEnv) (t : Nat) :
    (ensure_server_ready st env t).fastPath =
      (st.healthy && check_health env.fastProbe) ∧
    (ensure_server_ready st env t).st.starting =
      ((ensure_server_ready st env t).fastPath && st.starting) := by
  unfold ensure_server_ready pollPhase
  cases hb : st.healthy && check_health env.fastProbe
  · simp only [hb, Bool.false_eq_true, if_false]
    split
    · split <;> simp [record_activity]
    · split
      · split <;> simp [record_activity]
      · simp
  · simp [hb]

/-- C7: on a forwarded request, the request handed to the backend carries
the original method and body unchanged and exactly the original headers
whose (lower-case) names are not among host, connection, keep-alive,
transfer-encoding, upgrade; the response relayed to the caller carries the
backend status and body and exactly the backend response headers whose
names are not among connection, keep-alive, transfer-encoding. -/
theorem forward_header_stripping (st : MState) (now : Int) (req : Req)
    (env : CallEnv) (s : Nat) (hs : List (String × String)) (b : List Nat)
    (t : Nat)
    (h : (ensure_server_ready (record_activity now st) env t).ok = true) :
    (proxy st now req env (.success s hs b) t).sent =
      some (buildBackendRequest VLLM_URL req) ∧
    (proxy st now req env (.success s hs b) t).status = s ∧
    (proxy st now req env (.success s hs b) t).body = b ∧
    (proxy st now req env (.success s hs b) t).headers =
      stripHeaders RESPONSE_STRIP hs ∧
    (buildBackendRequest VLLM_URL req).method = req.method ∧
    (buildBackendRequest VLLM_URL req).body = req.body ∧
    (∀ kv : String × String,
      kv ∈ (buildBackendRequest VLLM_URL req).headers ↔
        kv ∈ req.headers ∧ REQUEST_STRIP.contains kv.1 = false) ∧
    (∀ kv : String × String,
      kv ∈ stripHeaders RESPONSE_STRIP hs ↔
        kv ∈ hs ∧ RESPONSE_STRIP.contains kv.1 = false) := by
  refine ⟨?_, ?_, ?_, ?_, rfl, rfl, ?_, ?_⟩
  · unfold proxy; simp [h]
  · unfold proxy; simp [h]
  · unfold proxy; simp [h]
  · unfold proxy; simp [h]
  · intro kv
    simp [buildBackendRequest, stripHeaders, List.mem_filter]
  · intro kv
    simp [stripHeaders, List.mem_filter]

/-- Witness for C7: a concrete request forwarded through a healthy
backend. -/
theorem forward_header_stripping_witness :
    (proxy stHealthyW 0 reqW envFastW
        (.success 200 [("content-type", "application/json"),
          ("connection", "close")] [10]) 600).sent =
      some (buildBackendRequest VLLM_URL reqW) ∧
    (proxy stHealthyW 0 reqW envFastW
        (.success 200 [("content-type", "application/json"),
          ("connection", "close")] [10]) 600).status = 200 ∧
    (proxy stHealthyW 0 reqW envFastW
        (.success 200 [("content-type", "application/json"),
          ("connection", "close")] [10]) 600).body = [10] ∧
    (proxy stHealthyW 0 reqW envFastW
        (.success 200 [("content-type", "application/json"),
          ("connection", "close")] [10]) 600).headers =
      stripHeaders RESPONSE_STRIP [("content-type", "application/json"),
        ("connection", "close")] ∧
    (buildBackendRequest VLLM_URL reqW).method = reqW.method ∧
    (buildBackendRequest VLLM_URL reqW).body = reqW.body ∧
    (∀ kv : String × String,
      kv ∈ (buildBackendRequest VLLM_URL reqW).headers ↔
        kv ∈ reqW.headers ∧ REQUEST_STRIP.contains kv.1 = false) ∧
    (∀ kv : String × String,
      kv ∈ stripHeaders RESPONSE_STRIP [("content-type", "application/json"),
          ("connection", "close")] ↔
        kv ∈ [("content-type", "application/json"), ("connection", "close")] ∧
          RESPONSE_STRIP.contains kv.1 = false) :=
  forward_header_stripping stHealthyW 0 reqW envFastW 200
    [("content-type", "application/json"), ("connection", "close")] [10] 600
    rfl
